import Mathlib

/-!
Shallow embedding of the reconciliation engine of `searchlight/grafana-operator`:
the apply/patch/retry primitives for Dashboard records
(`src/unnamed/part_000`, package `util`) and the finalizer-guarded Datasource
reconciler (`src/pkg/controller/datasource.go`).

External collaborators (the declarative store / Kubernetes API and the Grafana
backend client) are modelled as oracles: structures of response functions,
indexed by call number where the source calls them inside a retry loop.  Each
embedded operation additionally returns the trace of side-effecting calls it
issued, so that theorems can speak about which external calls and store writes
a pass performs.
-/

/-- Classified error returned by the declarative store or the backend client,
mirroring the `kerr.IsNotFound` / `kerr.IsConflict` / `kutil.IsRequestRetryable`
classification used in the source.  The payload is the error text. -/
inductive KErr where
  | notFound (msg : String)
  | conflict (msg : String)
  | transient (msg : String)
  | fatal (msg : String)
  deriving DecidableEq, Repr

/-- `kerr.IsNotFound`. -/
def KErr.isNotFound : KErr → Bool
  | .notFound _ => true
  | _ => false

/-- `kerr.IsConflict`. -/
def KErr.isConflict : KErr → Bool
  | .conflict _ => true
  | _ => false

/-- `kutil.IsRequestRetryable`: true exactly for transient errors. -/
def KErr.isRequestRetryable : KErr → Bool
  | .transient _ => true
  | _ => false

/-- Rendering of an error by Go's `%v` verb: its message text. -/
def KErr.render : KErr → String
  | .notFound m => m
  | .conflict m => m
  | .transient m => m
  | .fatal m => m

/-- `kutil.VerbType`: the verb reported by the apply primitives. -/
inductive VerbType where
  | created
  | patched
  | unchanged
  deriving DecidableEq, Repr

/-- Outcome of `wait.PollImmediate`: either the condition aborted with an
error of its own, or the timeout elapsed (`wait.ErrWaitTimeout`). -/
inductive PollErr where
  | timeout
  | cond (e : KErr)
  deriving DecidableEq, Repr

/-- Go's `%v` rendering of the poll error. -/
def PollErr.render : PollErr → String
  | .timeout => "timed out waiting for the condition"
  | .cond e => e.render

/-- `wait.PollImmediate` with the interval/timeout budget abstracted into a
maximum number of condition invocations (the design maps the retry policy to
an explicit `{interval, timeout, maxAttempts}` value).  The condition threads
a state (the Go closure's captured variables) and returns `(state, done, err)`:
a non-nil error aborts the poll with that error, `done` stops it successfully,
and exhausting the budget yields `PollErr.timeout`. -/
def pollLoop {σ : Type} (cond : σ → σ × Bool × Option KErr) : Nat → σ → σ × Option PollErr
  | 0, s => (s, some .timeout)
  | Nat.succ n, s =>
      let r := cond s
      match r.2.2 with
      | some e => (r.1, some (.cond e))
      | none => if r.2.1 then (r.1, none) else pollLoop cond n r.1

/-- `metav1.ObjectMeta`, restricted to the fields the embedded code reads or
writes: identity, the finalizer list and the deletion marker. -/
structure ObjectMeta where
  ns : String
  name : String
  finalizers : List String
  deletionTimestamp : Option String
  deriving DecidableEq, Repr

/-- `core_util.HasFinalizer`: membership of the token in the finalizer list. -/
def HasFinalizer (m : ObjectMeta) (fin : String) : Bool :=
  m.finalizers.contains fin

/-- `core_util.AddFinalizer` (kmodules helper, not under `src/`): returns the
meta unchanged when the token is already present, otherwise appends it. -/
def AddFinalizer (m : ObjectMeta) (fin : String) : ObjectMeta :=
  if m.finalizers.contains fin then m
  else { m with finalizers := m.finalizers ++ [fin] }

/-- `core_util.RemoveFinalizer` (kmodules helper, not under `src/`): removes
every occurrence of the token from the finalizer list. -/
def RemoveFinalizer (m : ObjectMeta) (fin : String) : ObjectMeta :=
  { m with finalizers := m.finalizers.filter (fun x => x != fin) }

/-- Go `uint(x)` applied to an `int64`: reduction modulo `2^64`. -/
def uintOfInt64 (i : Int) : Nat :=
  (i % (2 : Int) ^ 64).toNat

/-- Go `int64(u)` applied to a 64-bit `uint`: two's-complement reinterpretation. -/
def int64OfUint (n : Nat) : Int :=
  let m : Nat := n % 2 ^ 64
  if m < 2 ^ 63 then (m : Int) else (m : Int) - 2 ^ 64

/-- `api.DatasourceSpec` (fields read by the reconciler). -/
structure DatasourceSpec where
  orgID : Int
  name : String
  typ : String
  access : String
  url : String
  isDefault : Bool
  deriving DecidableEq, Repr

/-- `api.DatasourceStatus` (per the CRD schema in the repository). -/
structure DatasourceStatus where
  datasourceID : Option Int
  phase : String
  reason : String
  observedGeneration : Int
  deriving DecidableEq, Repr

/-- `api.Datasource`. -/
structure Datasource where
  meta : ObjectMeta
  spec : DatasourceSpec
  status : DatasourceStatus
  deriving DecidableEq, Repr

/-- `sdk.Datasource`: the backend's object shape built by the reconciler. -/
structure SdkDatasource where
  id : Nat
  orgID : Nat
  name : String
  typ : String
  access : String
  url : String
  isDefault : Bool
  deriving DecidableEq, Repr

/-- `sdk.StatusMessage`: the backend's reply (`ID *uint`, `Message *string`). -/
structure StatusMessage where
  id : Option Nat
  message : Option String
  deriving DecidableEq, Repr

/-- The `DatasourceFinalizer` constant. -/
def DatasourceFinalizer : String := "datasource.grafana.searchlight.dev"

/-- Grafana backend client oracle: the outcome of each of the three
side-effecting calls the reconciler can issue. -/
structure GrafanaAPI where
  createR : SdkDatasource → Except KErr StatusMessage
  updateR : SdkDatasource → Except KErr StatusMessage
  deleteR : Nat → Except KErr StatusMessage

/-- One external (backend) call, as recorded in a reconciliation trace. -/
inductive ExtCall where
  | create (d : SdkDatasource)
  | update (d : SdkDatasource)
  | delete (id : Nat)
  deriving DecidableEq, Repr

/-- Top-level field of a Datasource for the merge diff.  The source builds the
merge patch with `jsonpatch.CreateMergePatch` over the JSON serializations;
the embedding records which top-level fields differ together with their new
values, preserving the two properties the code relies on: the diff is empty
exactly when the serializations coincide, and applying the diff to the
original reproduces the modified record. -/
inductive DsFieldDiff where
  | meta (m : ObjectMeta)
  | spec (s : DatasourceSpec)
  | status (s : DatasourceStatus)
  deriving DecidableEq, Repr

/-- Merge diff between two Datasource records (see `DsFieldDiff`). -/
def datasourceMergeDiff (cur mod : Datasource) : List DsFieldDiff :=
  (if cur.meta = mod.meta then [] else [.meta mod.meta]) ++
  (if cur.spec = mod.spec then [] else [.spec mod.spec]) ++
  (if cur.status = mod.status then [] else [.status mod.status])

/-- Declarative store oracle for Datasource records. -/
structure DsStore where
  patchR : Datasource → List DsFieldDiff → Except KErr Datasource
  updateStatusR : Datasource → Except KErr Datasource

/-- One store write issued while reconciling a Datasource. -/
inductive DsStoreOp where
  | patch (ns name : String) (diff : List DsFieldDiff)
  | updateStatus (d : Datasource)
  deriving DecidableEq, Repr

/-- `util.PatchDatasourceObject` (generated twin, in this repository but not
under `src/`, of `PatchDashboardObject` in `src/unnamed/part_000`): computes
the merge diff between `cur` and `mod`; an empty diff returns `cur` with verb
`unchanged` and issues no write, otherwise the diff is submitted as a store
patch and the server's record is returned with verb `patched`. -/
def PatchDatasourceObject (st : DsStore) (cur mod : Datasource) :
    (Option Datasource × VerbType × Option KErr) × List DsStoreOp :=
  let patch := datasourceMergeDiff cur mod
  if patch.isEmpty then ((some cur, .unchanged, none), [])
  else
    match st.patchR cur patch with
    | .ok out => ((some out, .patched, none), [.patch cur.meta.ns cur.meta.name patch])
    | .error e => ((none, .patched, some e), [.patch cur.meta.ns cur.meta.name patch])

/-- `util.PatchDatasource`: applies the mutator to a deep copy of `cur`
(value semantics make the copy implicit) and delegates to
`PatchDatasourceObject`. -/
def PatchDatasource (st : DsStore) (cur : Datasource) (transform : Datasource → Datasource) :
    (Option Datasource × VerbType × Option KErr) × List DsStoreOp :=
  PatchDatasourceObject st cur (transform cur)

/-- The `sdk.Datasource` value the reconciler builds from a record's spec
(`ID` left at its zero value). -/
def dataSrcOf (ds : Datasource) : SdkDatasource :=
  { id := 0
    orgID := uintOfInt64 ds.spec.orgID
    name := ds.spec.name
    typ := ds.spec.typ
    access := ds.spec.access
    url := ds.spec.url
    isDefault := ds.spec.isDefault }

/-- `runDatasourceFinalizer` (`src/pkg/controller/datasource.go:123`): fails
when `Status.DatasourceID` is missing; otherwise deletes the backend object
and, on success, removes the finalizer via a patch. -/
def runDatasourceFinalizer (g : GrafanaAPI) (st : DsStore) (ds : Datasource) :
    Option KErr × List ExtCall × List DsStoreOp :=
  match ds.status.datasourceID with
  | none => (some (.fatal "datasource can't be deleted: reason: Datasource ID is missing"), [], [])
  | some i =>
      let dsID := uintOfInt64 i
      match g.deleteR dsID with
      | .error e => (some e, [.delete dsID], [])
      | .ok _ =>
          let pr := PatchDatasource st ds
            (fun up => { up with meta := RemoveFinalizer ds.meta DatasourceFinalizer })
          match pr.1.2.2 with
          | some e => (some e, [.delete dsID], pr.2)
          | none => (none, [.delete dsID], pr.2)

/-- `reconcileDatasource` (`src/pkg/controller/datasource.go:68`): the
finalizer-guarded state machine for one pass over a Datasource record. -/
def reconcileDatasource (g : GrafanaAPI) (st : DsStore) (ds : Datasource) :
    Option KErr × List ExtCall × List DsStoreOp :=
  if ds.meta.deletionTimestamp.isSome then
    if HasFinalizer ds.meta DatasourceFinalizer then
      runDatasourceFinalizer g st ds
    else (none, [], [])
  else if ! HasFinalizer ds.meta DatasourceFinalizer then
    let pr := PatchDatasource st ds
      (fun up => { up with meta := AddFinalizer ds.meta DatasourceFinalizer })
    match pr.1.2.2 with
    | some e => (some e, [], pr.2)
    | none => (none, [], pr.2)
  else
    match ds.status.datasourceID with
    | some i =>
        let dataSrc := { dataSrcOf ds with id := uintOfInt64 i }
        match g.updateR dataSrc with
        | .error e => (some e, [.update dataSrc], [])
        | .ok _ => (none, [.update dataSrc], [])
    | none =>
        match g.createR (dataSrcOf ds) with
        | .error e => (some e, [.create (dataSrcOf ds)], [])
        | .ok msg =>
            let ds' :=
              match msg.id with
              | some u =>
                  { ds with status := { ds.status with datasourceID := some (int64OfUint u) } }
              | none => ds
            match st.updateStatusR ds' with
            | .error e => (some e, [.create (dataSrcOf ds)], [.updateStatus ds'])
            | .ok _ => (none, [.create (dataSrcOf ds)], [.updateStatus ds'])

/-- `metav1.TypeMeta`. -/
structure TypeMeta where
  kind : String
  apiVersion : String
  deriving DecidableEq, Repr

/-- `api.DashboardStatus` (the api types are not under `src/`; the status
shape follows the spec's persisted-state description: external identifier,
phase, reason, observed generation). -/
structure DashboardStatus where
  dashboardID : Option Int
  phase : String
  reason : String
  observedGeneration : Int
  deriving DecidableEq, Repr

/-- `api.Dashboard`.  The apply primitives treat the spec as an opaque
payload, so it is embedded as a string. -/
structure Dashboard where
  typeMeta : TypeMeta
  meta : ObjectMeta
  spec : String
  status : DashboardStatus
  deriving DecidableEq, Repr

/-- The `TypeMeta` that `CreateOrPatchDashboard` stamps on a fresh record. -/
def dashboardTypeMeta : TypeMeta :=
  { kind := "Dashboard", apiVersion := "grafana.searchlight.dev/v1alpha1" }

/-- The empty template `&api.Dashboard{TypeMeta: ..., ObjectMeta: meta}`:
spec and status at their zero values. -/
def dashboardTemplate (meta : ObjectMeta) : Dashboard :=
  { typeMeta := dashboardTypeMeta
    meta := meta
    spec := ""
    status := { dashboardID := none, phase := "", reason := "", observedGeneration := 0 } }

/-- Top-level field of a Dashboard for the merge diff (see `DsFieldDiff` for
how this models `jsonpatch.CreateMergePatch`). -/
inductive DashFieldDiff where
  | typeMeta (t : TypeMeta)
  | meta (m : ObjectMeta)
  | spec (s : String)
  | status (s : DashboardStatus)
  deriving DecidableEq, Repr

/-- Merge diff between two Dashboard records. -/
def dashboardMergeDiff (cur mod : Dashboard) : List DashFieldDiff :=
  (if cur.typeMeta = mod.typeMeta then [] else [.typeMeta mod.typeMeta]) ++
  (if cur.meta = mod.meta then [] else [.meta mod.meta]) ++
  (if cur.spec = mod.spec then [] else [.spec mod.spec]) ++
  (if cur.status = mod.status then [] else [.status mod.status])

/-- Application of a merge diff to a record: each recorded field is replaced
by its new value (the store-side semantics of a merge patch). -/
def applyDashDiff (cur : Dashboard) (diff : List DashFieldDiff) : Dashboard :=
  diff.foldl
    (fun d f =>
      match f with
      | .typeMeta t => { d with typeMeta := t }
      | .meta m => { d with meta := m }
      | .spec s => { d with spec := s }
      | .status s => { d with status := s })
    cur

/-- Declarative store oracle for Dashboard records.  `getR`, `updateR` and
`updateStatusR` are indexed by the attempt number (1-based) because the
source calls them inside retry loops whose successive calls may answer
differently. -/
structure DashStore where
  getR : Nat → Except KErr Dashboard
  createR : Dashboard → Except KErr Dashboard
  patchR : Dashboard → List DashFieldDiff → Except KErr Dashboard
  updateR : Nat → Dashboard → Except KErr Dashboard
  updateStatusR : Nat → Dashboard → Except KErr Dashboard

/-- One store write issued by the Dashboard apply primitives. -/
inductive DashOp where
  | create (d : Dashboard)
  | patch (ns name : String) (diff : List DashFieldDiff)
  | update (d : Dashboard)
  | updateStatus (d : Dashboard)
  deriving DecidableEq, Repr

/-- `util.PatchDashboardObject` (`src/unnamed/part_000:58`): serializes both
records, computes the merge diff, returns `cur` with verb `unchanged` when
the diff is empty (no write), otherwise submits the diff as a store patch and
returns the server's record with verb `patched`.  The `json.Marshal` error
branches cannot fire for these struct types and so have no counterpart. -/
def PatchDashboardObject (st : DashStore) (cur mod : Dashboard) :
    (Option Dashboard × VerbType × Option KErr) × List DashOp :=
  let patch := dashboardMergeDiff cur mod
  if patch.isEmpty then ((some cur, .unchanged, none), [])
  else
    match st.patchR cur patch with
    | .ok out => ((some out, .patched, none), [.patch cur.meta.ns cur.meta.name patch])
    | .error e => ((none, .patched, some e), [.patch cur.meta.ns cur.meta.name patch])

/-- `util.PatchDashboard` (`src/unnamed/part_000:54`): applies the mutator to
a deep copy of `cur` and delegates to `PatchDashboardObject`. -/
def PatchDashboard (st : DashStore) (cur : Dashboard) (transform : Dashboard → Dashboard) :
    (Option Dashboard × VerbType × Option KErr) × List DashOp :=
  PatchDashboardObject st cur (transform cur)

/-- `util.CreateOrPatchDashboard` (`src/unnamed/part_000:36`): fetches the
record by key; a not-found answer creates `transform` of the empty template
with verb `created`, any other fetch error is returned with verb `unchanged`,
and a present record is delegated to `PatchDashboard`. -/
def CreateOrPatchDashboard (st : DashStore) (meta : ObjectMeta)
    (transform : Dashboard → Dashboard) :
    (Option Dashboard × VerbType × Option KErr) × List DashOp :=
  match st.getR 1 with
  | .error e =>
      if e.isNotFound then
        let mod := transform (dashboardTemplate meta)
        match st.createR mod with
        | .ok out => ((some out, .created, none), [.create mod])
        | .error e2 => ((none, .created, some e2), [.create mod])
      else ((none, .unchanged, some e), [])
  | .ok cur => PatchDashboard st cur transform

/-- Captured state of the `TryUpdateDashboard` poll closure: the attempt
counter, the named return `result`, the writes issued so far, and the number
of `glog.Errorf` calls made. -/
structure TryUpdSt where
  attempt : Nat
  result : Option Dashboard
  ops : List DashOp
  logs : Nat
  deriving DecidableEq, Repr

/-- The poll condition of `TryUpdateDashboard` (`src/unnamed/part_000:83`):
fetch by key; a not-found fetch error aborts the poll with that error; a
successful fetch submits `transform` of a deep copy as a full update and
reports done exactly when the update succeeded (an update error retries with
no log); any other fetch error logs and retries. -/
def tryUpdateCond (st : DashStore) (transform : Dashboard → Dashboard)
    (s : TryUpdSt) : TryUpdSt × Bool × Option KErr :=
  let attempt := s.attempt + 1
  match st.getR attempt with
  | .error e2 =>
      if e2.isNotFound then ({ s with attempt := attempt }, false, some e2)
      else ({ s with attempt := attempt, logs := s.logs + 1 }, false, none)
  | .ok cur =>
      match st.updateR attempt (transform cur) with
      | .ok r =>
          ({ s with attempt := attempt, result := some r,
                    ops := s.ops ++ [.update (transform cur)] }, true, none)
      | .error _ =>
          ({ s with attempt := attempt, result := none,
                    ops := s.ops ++ [.update (transform cur)] }, false, none)

/-- The wrapped error `TryUpdateDashboard` returns when the poll fails. -/
def tryUpdateErrMsg (meta : ObjectMeta) (attempt : Nat) (pe : PollErr) : String :=
  "failed to update Dashboard " ++ meta.ns ++ "/" ++ meta.name ++ " after " ++
    toString attempt ++ " attempts due to " ++ pe.render

/-- `util.TryUpdateDashboard` (`src/unnamed/part_000:81`): polls
`tryUpdateCond` within the attempt budget; a poll failure is wrapped into an
error naming the attempt count.  Returns the result/error pair together with
the final closure state (trace). -/
def TryUpdateDashboard (budget : Nat) (st : DashStore) (meta : ObjectMeta)
    (transform : Dashboard → Dashboard) :
    (Option Dashboard × Option String) × TryUpdSt :=
  let s0 : TryUpdSt := { attempt := 0, result := none, ops := [], logs := 0 }
  let r := pollLoop (tryUpdateCond st transform) budget s0
  match r.2 with
  | none => ((r.1.result, none), r.1)
  | some pe => ((r.1.result, some (tryUpdateErrMsg meta r.1.attempt pe)), r.1)

/-- The record submitted by the `apply` closure of `UpdateDashboardStatus`
(`src/unnamed/part_000:107`), at `copy = false` as in its one call site:
type meta, object meta and spec are taken from `x` (the latest base), while
the status is the mutator applied to the ORIGINAL record's status. -/
def applyStatus (x inn : Dashboard) (transform : DashboardStatus → DashboardStatus) : Dashboard :=
  { typeMeta := x.typeMeta, meta := x.meta, spec := x.spec, status := transform inn.status }

/-- Captured state of the `UpdateDashboardStatus` poll closure. -/
structure UpdStatusSt where
  attempt : Nat
  getCalls : Nat
  cur : Dashboard
  result : Option Dashboard
  subs : List Dashboard
  deriving DecidableEq, Repr

/-- The poll condition of `UpdateDashboardStatus` (`src/unnamed/part_000:123`):
submit `applyStatus cur` as a status update.  On success, done.  On a
conflict, re-fetch: a successful fetch replaces `cur` and retries, a
retryable fetch error retries, any other fetch error aborts the poll.  On a
non-conflict error the source tests the OUTER named return `err` — still nil
while the poll runs — so its abort branch is unreachable and every
non-conflict error falls through to a retry without re-fetching. -/
def updateStatusCond (st : DashStore) (transform : DashboardStatus → DashboardStatus)
    (inn : Dashboard) (s : UpdStatusSt) : UpdStatusSt × Bool × Option KErr :=
  let attempt := s.attempt + 1
  let submitted := applyStatus s.cur inn transform
  match st.updateStatusR attempt submitted with
  | .ok r =>
      ({ s with attempt := attempt, result := some r,
                subs := s.subs ++ [submitted] }, true, none)
  | .error e2 =>
      let s2 := { s with attempt := attempt, result := none,
                         subs := s.subs ++ [submitted] }
      if e2.isConflict then
        let gc := s2.getCalls + 1
        match st.getR gc with
        | .ok latest => ({ s2 with getCalls := gc, cur := latest }, false, none)
        | .error e3 =>
            if e3.isRequestRetryable then ({ s2 with getCalls := gc }, false, none)
            else ({ s2 with getCalls := gc }, false, some e3)
      else (s2, false, none)

/-- The wrapped error `UpdateDashboardStatus` returns when the poll fails. -/
def updateStatusErrMsg (inn : Dashboard) (attempt : Nat) (pe : PollErr) : String :=
  "failed to update status of Dashboard " ++ inn.meta.ns ++ "/" ++ inn.meta.name ++
    " after " ++ toString attempt ++ " attempts due to " ++ pe.render

/-- `util.UpdateDashboardStatus` (`src/unnamed/part_000:102`): polls
`updateStatusCond` starting from a deep copy of `inn` as the base; a poll
failure is wrapped into an error naming the attempt count.  Returns the
result/error pair together with the final closure state (trace). -/
def UpdateDashboardStatus (budget : Nat) (st : DashStore) (inn : Dashboard)
    (transform : DashboardStatus → DashboardStatus) :
    (Option Dashboard × Option String) × UpdStatusSt :=
  let s0 : UpdStatusSt :=
    { attempt := 0, getCalls := 0, cur := inn, result := none, subs := [] }
  let r := pollLoop (updateStatusCond st transform inn) budget s0
  match r.2 with
  | none => ((r.1.result, none), r.1)
  | some pe => ((r.1.result, some (updateStatusErrMsg inn r.1.attempt pe)), r.1)

/-! ### Helper lemmas on finalizer edits and merge diffs -/

theorem length_filter_ne_lt {l : List String} {fin : String} (h : fin ∈ l) :
    (l.filter (fun x => x != fin)).length < l.length := by
  induction l with
  | nil => cases h
  | cons a t ih =>
      by_cases ha : a = fin
      · subst ha
        simp only [List.filter_cons, bne_self_eq_false, Bool.false_eq_true, if_false,
          List.length_cons]
        exact Nat.lt_succ_of_le (List.length_filter_le _ _)
      · have hb : (a != fin) = true := by simp [ha]
        have hmem : fin ∈ t := by
          cases h with
          | head => exact absurd rfl ha
          | tail _ h2 => exact h2
        simp only [List.filter_cons, hb, if_true, List.length_cons]
        exact Nat.succ_lt_succ (ih hmem)

theorem addFinalizer_meta_ne {m : ObjectMeta} {fin : String}
    (h : HasFinalizer m fin = false) : AddFinalizer m fin ≠ m := by
  unfold HasFinalizer at h
  unfold AddFinalizer
  rw [h]
  simp only [Bool.false_eq_true, if_neg, if_false]
  intro heq
  have hl := congrArg ObjectMeta.finalizers heq
  simp only at hl
  have := congrArg List.length hl
  simp only [List.length_append, List.length_cons, List.length_nil] at this
  omega

theorem removeFinalizer_meta_ne {m : ObjectMeta} {fin : String}
    (h : HasFinalizer m fin = true) : RemoveFinalizer m fin ≠ m := by
  have hmem : fin ∈ m.finalizers := by
    unfold HasFinalizer at h
    simpa using h
  intro heq
  have hl := congrArg ObjectMeta.finalizers heq
  simp only [RemoveFinalizer] at hl
  have := length_filter_ne_lt hmem
  rw [hl] at this
  exact Nat.lt_irrefl _ this

theorem dsMergeDiff_meta_only {ds : Datasource} {m : ObjectMeta} (h : m ≠ ds.meta) :
    datasourceMergeDiff ds { ds with meta := m } = [.meta m] := by
  unfold datasourceMergeDiff
  simp [Ne.symm h]

/-- If the pass reconciles a record not carrying the finalizer, no backend
Create call ever appears in its trace (contrapositive of "Create only for a
record already carrying the finalizer"). -/
theorem create_requires_finalizer (g : GrafanaAPI) (st : DsStore) (ds : Datasource)
    (d : SdkDatasource) (h : HasFinalizer ds.meta DatasourceFinalizer = false) :
    ExtCall.create d ∉ (reconcileDatasource g st ds).2.1 := by
  unfold reconcileDatasource
  by_cases hd : ds.meta.deletionTimestamp.isSome
  · simp [hd, h]
  · simp only [hd, if_false, h, Bool.not_false, if_pos, if_true]
    cases hp : (PatchDatasource st ds
        (fun up => { up with meta := AddFinalizer ds.meta DatasourceFinalizer })).1.2.2 with
    | none => simp [hp]
    | some e => simp [hp]

/-! ### Concrete fixtures -/

/-- A fresh active record (no finalizer, no deletion marker, empty status). -/
def dsMeta0 : ObjectMeta :=
  { ns := "default", name := "ds1", finalizers := [], deletionTimestamp := none }

def dsSpec0 : DatasourceSpec :=
  { orgID := 1, name := "prometheus", typ := "prometheus", access := "proxy",
    url := "http://prom:9090", isDefault := false }

def ds0 : Datasource :=
  { meta := dsMeta0, spec := dsSpec0,
    status := { datasourceID := none, phase := "", reason := "", observedGeneration := 0 } }

/-- `ds0` carrying the controller finalizer. -/
def ds0fin : Datasource :=
  { ds0 with meta := { dsMeta0 with finalizers := [DatasourceFinalizer] } }

/-- `ds0fin` deletion-marked with a recorded backend identifier. -/
def ds0del : Datasource :=
  { ds0fin with
    meta := { ds0fin.meta with deletionTimestamp := some "t0" }
    status := { ds0fin.status with datasourceID := some 7 } }

/-- Deletion-marked, finalizer present, backend identifier missing. -/
def ds0delNoID : Datasource :=
  { ds0fin with meta := { ds0fin.meta with deletionTimestamp := some "t0" } }

/-- Deletion-marked with the finalizer absent. -/
def ds0delNoFin : Datasource :=
  { ds0 with meta := { dsMeta0 with deletionTimestamp := some "t0" } }

/-- A backend client whose calls all succeed; Create assigns identifier 7. -/
def gOK : GrafanaAPI :=
  { createR := fun _ => .ok { id := some 7, message := some "Datasource added" }
    updateR := fun _ => .ok { id := none, message := some "Datasource updated" }
    deleteR := fun _ => .ok { id := none, message := some "Datasource deleted" } }

/-- A backend client whose Create succeeds but returns a nil identifier. -/
def gNilID : GrafanaAPI :=
  { gOK with createR := fun _ => .ok { id := none, message := some "Datasource added" } }

/-- A store whose writes all succeed. -/
def stEcho : DsStore :=
  { patchR := fun _ _ => .ok ds0, updateStatusR := fun d => .ok d }

/-! ### Claim theorems: Datasource reconciler -/

/-- C1: a reconciliation pass over a record without the controller finalizer
and without a deletion marker issues no backend call; it issues exactly one
store write, the patch adding the finalizer token, and returns that patch's
outcome.  Moreover a backend Create never appears in the trace of a pass over
a record not carrying the finalizer. -/
theorem reconcile_no_finalizer_adds_token_without_external_calls
    (g : GrafanaAPI) (st : DsStore) (ds : Datasource)
    (h1 : ds.meta.deletionTimestamp = none)
    (h2 : HasFinalizer ds.meta DatasourceFinalizer = false) :
    (reconcileDatasource g st ds).2.1 = [] ∧
    (reconcileDatasource g st ds).2.2 =
      [DsStoreOp.patch ds.meta.ns ds.meta.name
        [DsFieldDiff.meta (AddFinalizer ds.meta DatasourceFinalizer)]] ∧
    (∀ d, st.patchR ds [DsFieldDiff.meta (AddFinalizer ds.meta DatasourceFinalizer)] =
        Except.ok d → (reconcileDatasource g st ds).1 = none) ∧
    (∀ e, st.patchR ds [DsFieldDiff.meta (AddFinalizer ds.meta DatasourceFinalizer)] =
        Except.error e → (reconcileDatasource g st ds).1 = some e) ∧
    (∀ g2 st2 ds2 d, HasFinalizer ds2.meta DatasourceFinalizer = false →
      ExtCall.create d ∉ (reconcileDatasource g2 st2 ds2).2.1) := by
  have hne : AddFinalizer ds.meta DatasourceFinalizer ≠ ds.meta := addFinalizer_meta_ne h2
  have hdiff := dsMergeDiff_meta_only hne
  cases hp : st.patchR ds [DsFieldDiff.meta (AddFinalizer ds.meta DatasourceFinalizer)] with
  | ok d0 =>
      have key : reconcileDatasource g st ds =
          (none, [],
           [DsStoreOp.patch ds.meta.ns ds.meta.name
             [DsFieldDiff.meta (AddFinalizer ds.meta DatasourceFinalizer)]]) := by
        unfold reconcileDatasource PatchDatasource PatchDatasourceObject
        simp [h1, h2, hdiff, hp]
      refine ⟨by rw [key], by rw [key], ?_, ?_, ?_⟩
      · intro d hd; rw [key]
      · intro e he; cases he
      · intro g2 st2 ds2 d hf; exact create_requires_finalizer g2 st2 ds2 d hf
  | error e0 =>
      have key : reconcileDatasource g st ds =
          (some e0, [],
           [DsStoreOp.patch ds.meta.ns ds.meta.name
             [DsFieldDiff.meta (AddFinalizer ds.meta DatasourceFinalizer)]]) := by
        unfold reconcileDatasource PatchDatasource PatchDatasourceObject
        simp [h1, h2, hdiff, hp]
      refine ⟨by rw [key], by rw [key], ?_, ?_, ?_⟩
      · intro d hd; cases hd
      · intro e he
        injection he with h
        subst h
        rw [key]
      · intro g2 st2 ds2 d hf; exact create_requires_finalizer g2 st2 ds2 d hf

theorem reconcile_no_finalizer_adds_token_without_external_calls_witness :
    ds0.meta.deletionTimestamp = none ∧
    HasFinalizer ds0.meta DatasourceFinalizer = false ∧
    (reconcileDatasource gOK stEcho ds0).2.1 = [] ∧
    (reconcileDatasource gOK stEcho ds0).2.2 =
      [DsStoreOp.patch ds0.meta.ns ds0.meta.name
        [DsFieldDiff.meta (AddFinalizer ds0.meta DatasourceFinalizer)]] :=
  ⟨rfl, by decide,
    (reconcile_no_finalizer_adds_token_without_external_calls gOK stEcho ds0 rfl (by decide)).1,
    (reconcile_no_finalizer_adds_token_without_external_calls gOK stEcho ds0 rfl (by decide)).2.1⟩

/-- C9: a deletion-marked record without the controller finalizer is fully
reconciled: the pass returns no error, issues no backend call and no store
write. -/
theorem reconcile_deleted_without_finalizer_is_noop
    (g : GrafanaAPI) (st : DsStore) (ds : Datasource)
    (h1 : ds.meta.deletionTimestamp.isSome = true)
    (h2 : HasFinalizer ds.meta DatasourceFinalizer = false) :
    reconcileDatasource g st ds = (none, [], []) := by
  unfold reconcileDatasource
  simp [h1, h2]

theorem reconcile_deleted_without_finalizer_is_noop_witness :
    ds0delNoFin.meta.deletionTimestamp.isSome = true ∧
    HasFinalizer ds0delNoFin.meta DatasourceFinalizer = false ∧
    reconcileDatasource gOK stEcho ds0delNoFin = (none, [], []) :=
  ⟨rfl, by decide,
    reconcile_deleted_without_finalizer_is_noop gOK stEcho ds0delNoFin rfl (by decide)⟩

/-- C3: a deletion-marked record carrying the finalizer but with no recorded
backend identifier never triggers a backend Delete: the pass issues no
backend call and no store write and returns the missing-identifier error. -/
theorem finalize_without_id_reports_error_no_delete
    (g : GrafanaAPI) (st : DsStore) (ds : Datasource)
    (h1 : ds.meta.deletionTimestamp.isSome = true)
    (h2 : HasFinalizer ds.meta DatasourceFinalizer = true)
    (h3 : ds.status.datasourceID = none) :
    reconcileDatasource g st ds =
      (some (KErr.fatal "datasource can't be deleted: reason: Datasource ID is missing"),
       [], []) := by
  unfold reconcileDatasource runDatasourceFinalizer
  simp [h1, h2, h3]

theorem finalize_without_id_reports_error_no_delete_witness :
    ds0delNoID.meta.deletionTimestamp.isSome = true ∧
    HasFinalizer ds0delNoID.meta DatasourceFinalizer = true ∧
    ds0delNoID.status.datasourceID = none ∧
    reconcileDatasource gOK stEcho ds0delNoID =
      (some (KErr.fatal "datasource can't be deleted: reason: Datasource ID is missing"),
       [], []) :=
  ⟨rfl, by decide, rfl,
    finalize_without_id_reports_error_no_delete gOK stEcho ds0delNoID rfl (by decide) rfl⟩

/-- C2: for a finalizing record (finalizer present, deletion marker set,
identifier recorded), a failed backend Delete returns the error with no store
write (the finalizer stays), a successful Delete followed by a successful
patch removes the finalizer via that one patch and the pass returns no
error, and the pass issues a store write only if the Delete succeeded. -/
theorem finalizer_removed_only_after_delete_success
    (g : GrafanaAPI) (st : DsStore) (ds : Datasource) (i : Int)
    (h1 : ds.meta.deletionTimestamp.isSome = true)
    (h2 : HasFinalizer ds.meta DatasourceFinalizer = true)
    (h3 : ds.status.datasourceID = some i) :
    (∀ e, g.deleteR (uintOfInt64 i) = Except.error e →
        reconcileDatasource g st ds = (some e, [ExtCall.delete (uintOfInt64 i)], [])) ∧
    (∀ m d, g.deleteR (uintOfInt64 i) = Except.ok m →
        st.patchR ds [DsFieldDiff.meta (RemoveFinalizer ds.meta DatasourceFinalizer)] =
          Except.ok d →
        reconcileDatasource g st ds =
          (none, [ExtCall.delete (uintOfInt64 i)],
           [DsStoreOp.patch ds.meta.ns ds.meta.name
             [DsFieldDiff.meta (RemoveFinalizer ds.meta DatasourceFinalizer)]])) ∧
    ((reconcileDatasource g st ds).2.2 ≠ [] →
        ∃ m, g.deleteR (uintOfInt64 i) = Except.ok m) := by
  have hne : RemoveFinalizer ds.meta DatasourceFinalizer ≠ ds.meta := removeFinalizer_meta_ne h2
  have hdiff := dsMergeDiff_meta_only hne
  refine ⟨?_, ?_, ?_⟩
  · intro e he
    unfold reconcileDatasource runDatasourceFinalizer
    simp [h1, h2, h3, he]
  · intro m d hm hd
    unfold reconcileDatasource runDatasourceFinalizer PatchDatasource PatchDatasourceObject
    simp [h1, h2, h3, hm, hdiff, hd]
  · cases hdel : g.deleteR (uintOfInt64 i) with
    | ok m => intro _; exact ⟨m, rfl⟩
    | error e =>
        intro hne2
        have key : reconcileDatasource g st ds =
            (some e, [ExtCall.delete (uintOfInt64 i)], []) := by
          unfold reconcileDatasource runDatasourceFinalizer
          simp [h1, h2, h3, hdel]
        rw [key] at hne2
        exact absurd rfl hne2

theorem finalizer_removed_only_after_delete_success_witness :
    HasFinalizer ds0del.meta DatasourceFinalizer = true ∧
    ds0del.status.datasourceID = some 7 ∧
    reconcileDatasource gOK stEcho ds0del =
      (none, [ExtCall.delete (uintOfInt64 7)],
       [DsStoreOp.patch ds0del.meta.ns ds0del.meta.name
         [DsFieldDiff.meta (RemoveFinalizer ds0del.meta DatasourceFinalizer)]]) :=
  ⟨by decide, rfl,
    (finalizer_removed_only_after_delete_success gOK stEcho ds0del 7 rfl (by decide)
        rfl).2.1 _ _ rfl rfl⟩

/-- C10: for an active record (finalizer present, no deletion marker) with no
recorded identifier, a backend Create that succeeds but returns a nil
identifier leaves `Status.DatasourceID` absent, yet the pass still submits a
status update for the unchanged record and returns that update's outcome;
reconciling the same record again issues exactly a Create call (never an
Update). -/
theorem create_nil_id_still_updates_status
    (g : GrafanaAPI) (st : DsStore) (ds : Datasource) (msg : StatusMessage)
    (h1 : ds.meta.deletionTimestamp = none)
    (h2 : HasFinalizer ds.meta DatasourceFinalizer = true)
    (h3 : ds.status.datasourceID = none)
    (h4 : g.createR (dataSrcOf ds) = Except.ok msg)
    (h5 : msg.id = none) :
    (reconcileDatasource g st ds).2.1 = [ExtCall.create (dataSrcOf ds)] ∧
    (reconcileDatasource g st ds).2.2 = [DsStoreOp.updateStatus ds] ∧
    (∀ d, st.updateStatusR ds = Except.ok d → (reconcileDatasource g st ds).1 = none) ∧
    (∀ e, st.updateStatusR ds = Except.error e → (reconcileDatasource g st ds).1 = some e) ∧
    (∀ g2 st2, (reconcileDatasource g2 st2 ds).2.1 = [ExtCall.create (dataSrcOf ds)]) := by
  have next : ∀ g2 st2, (reconcileDatasource g2 st2 ds).2.1 =
      [ExtCall.create (dataSrcOf ds)] := by
    intro g2 st2
    unfold reconcileDatasource
    simp only [h1, Option.isSome_none, Bool.false_eq_true, if_false, h2, Bool.not_true,
      Bool.false_eq_true, if_false, h3]
    cases hc : g2.createR (dataSrcOf ds) with
    | error e => simp
    | ok m2 =>
        cases hm2 : m2.id with
        | none =>
            cases hup : st2.updateStatusR ds with
            | ok d2 => simp [hm2, hup]
            | error e2 => simp [hm2, hup]
        | some u =>
            cases hup : st2.updateStatusR
                { ds with status := { ds.status with datasourceID := some (int64OfUint u) } } with
            | ok d2 => simp [hm2, hup]
            | error e2 => simp [hm2, hup]
  cases hup : st.updateStatusR ds with
  | ok d0 =>
      have key : reconcileDatasource g st ds =
          (none, [ExtCall.create (dataSrcOf ds)], [DsStoreOp.updateStatus ds]) := by
        unfold reconcileDatasource
        simp [h1, h2, h3, h4, h5, hup]
      refine ⟨by rw [key], by rw [key], ?_, ?_, next⟩
      · intro d hd; rw [key]
      · intro e he; cases he
  | error e0 =>
      have key : reconcileDatasource g st ds =
          (some e0, [ExtCall.create (dataSrcOf ds)], [DsStoreOp.updateStatus ds]) := by
        unfold reconcileDatasource
        simp [h1, h2, h3, h4, h5, hup]
      refine ⟨by rw [key], by rw [key], ?_, ?_, next⟩
      · intro d hd; cases hd
      · intro e he
        injection he with h
        subst h
        rw [key]

theorem create_nil_id_still_updates_status_witness :
    HasFinalizer ds0fin.meta DatasourceFinalizer = true ∧
    ds0fin.status.datasourceID = none ∧
    (reconcileDatasource gNilID stEcho ds0fin).2.1 = [ExtCall.create (dataSrcOf ds0fin)] ∧
    (reconcileDatasource gNilID stEcho ds0fin).2.2 = [DsStoreOp.updateStatus ds0fin] :=
  ⟨by decide, rfl,
    (create_nil_id_still_updates_status gNilID stEcho ds0fin
        { id := none, message := some "Datasource added" } rfl (by decide) rfl rfl rfl).1,
    (create_nil_id_still_updates_status gNilID stEcho ds0fin
        { id := none, message := some "Datasource added" } rfl (by decide) rfl rfl rfl).2.1⟩

/-! ### Helper lemmas on the Dashboard merge diff -/

theorem dashMergeDiff_self (d : Dashboard) : dashboardMergeDiff d d = [] := by
  unfold dashboardMergeDiff
  simp

theorem dashMergeDiff_empty_iff {cur mod : Dashboard} :
    dashboardMergeDiff cur mod = [] ↔ cur = mod := by
  constructor
  · intro h
    cases cur with
    | mk ct cm cs cst =>
        cases mod with
        | mk mt mm ms mst =>
            unfold dashboardMergeDiff at h
            by_cases h1 : ct = mt <;> by_cases h2 : cm = mm <;>
              by_cases h3 : cs = ms <;> by_cases h4 : cst = mst <;>
              simp_all
  · intro h
    subst h
    exact dashMergeDiff_self cur

theorem applyDashDiff_mergeDiff (cur mod : Dashboard) :
    applyDashDiff cur (dashboardMergeDiff cur mod) = mod := by
  cases cur with
  | mk ct cm cs cst =>
      cases mod with
      | mk mt mm ms mst =>
          unfold dashboardMergeDiff applyDashDiff
          by_cases h1 : ct = mt <;> by_cases h2 : cm = mm <;>
            by_cases h3 : cs = ms <;> by_cases h4 : cst = mst <;>
            simp_all [List.foldl]

/-! ### Dashboard fixtures -/

def dashMeta0 : ObjectMeta :=
  { ns := "default", name := "dash1", finalizers := [], deletionTimestamp := none }

def dash0 : Dashboard := dashboardTemplate dashMeta0

/-- A mutator that pins the spec payload; idempotent by construction. -/
def tfSpec (d : Dashboard) : Dashboard := { d with spec := "panels" }

/-- A store that succeeds on every write and applies merge patches
faithfully; the fetch reports not-found. -/
def dStoreApply : DashStore :=
  { getR := fun _ => Except.error (.notFound "dashboard not found")
    createR := fun d => Except.ok d
    patchR := fun c p => Except.ok (applyDashDiff c p)
    updateR := fun _ d => Except.ok d
    updateStatusR := fun _ d => Except.ok d }

/-! ### Claim theorems: apply engine -/

/-- C4: when the mutator's output has an empty merge diff with the current
record, Patch returns the original record itself with verb `unchanged` and
issues no store write; when the store applies patches faithfully and the
mutator is idempotent, the second of two successive Patch calls with the same
mutator issues no write, so two calls perform at most one write in total —
exactly one when the first diff is non-empty. -/
theorem patch_empty_diff_unchanged_and_idempotent
    (st : DashStore) (cur : Dashboard) (transform : Dashboard → Dashboard) :
    (dashboardMergeDiff cur (transform cur) = [] →
      PatchDashboard st cur transform = ((some cur, VerbType.unchanged, none), [])) ∧
    ((∀ c p, st.patchR c p = Except.ok (applyDashDiff c p)) →
      transform (transform cur) = transform cur →
      (PatchDashboard st cur transform).1.1 = some (transform cur) ∧
      PatchDashboard st (transform cur) transform =
        ((some (transform cur), VerbType.unchanged, none), []) ∧
      (PatchDashboard st cur transform).2.length +
        (PatchDashboard st (transform cur) transform).2.length ≤ 1 ∧
      (dashboardMergeDiff cur (transform cur) ≠ [] →
        (PatchDashboard st cur transform).2.length = 1)) := by
  constructor
  · intro hd
    unfold PatchDashboard PatchDashboardObject
    simp [hd]
  · intro hstore hid
    have hsecond : PatchDashboard st (transform cur) transform =
        ((some (transform cur), VerbType.unchanged, none), []) := by
      unfold PatchDashboard PatchDashboardObject
      have hz : dashboardMergeDiff (transform cur) (transform (transform cur)) = [] := by
        rw [hid]
        exact dashMergeDiff_self _
      simp [hz]
    by_cases hd : dashboardMergeDiff cur (transform cur) = []
    · have hcur : cur = transform cur := dashMergeDiff_empty_iff.mp hd
      have hfirst : PatchDashboard st cur transform =
          ((some cur, VerbType.unchanged, none), []) := by
        unfold PatchDashboard PatchDashboardObject
        simp [hd]
      refine ⟨?_, hsecond, ?_, ?_⟩
      · rw [hfirst, ← hcur]
      · rw [hfirst, hsecond]
        simp
      · intro hne; exact absurd hd hne
    · have hfirst : PatchDashboard st cur transform =
          ((some (transform cur), VerbType.patched, none),
           [DashOp.patch cur.meta.ns cur.meta.name (dashboardMergeDiff cur (transform cur))]) := by
        unfold PatchDashboard PatchDashboardObject
        have hne : (dashboardMergeDiff cur (transform cur)).isEmpty = false := by
          cases hcd : dashboardMergeDiff cur (transform cur) with
          | nil => exact absurd hcd hd
          | cons x xs => simp
        simp only [hne, Bool.false_eq_true, if_false, hstore, applyDashDiff_mergeDiff]
      refine ⟨by rw [hfirst], hsecond, ?_, ?_⟩
      · rw [hfirst, hsecond]
        simp
      · intro _
        rw [hfirst]
        simp

theorem patch_empty_diff_unchanged_and_idempotent_witness :
    dashboardMergeDiff dash0 (tfSpec dash0) ≠ [] ∧
    (PatchDashboard dStoreApply dash0 tfSpec).1.1 = some (tfSpec dash0) ∧
    PatchDashboard dStoreApply (tfSpec dash0) tfSpec =
      ((some (tfSpec dash0), VerbType.unchanged, none), []) ∧
    (PatchDashboard dStoreApply dash0 tfSpec).2.length +
      (PatchDashboard dStoreApply (tfSpec dash0) tfSpec).2.length ≤ 1 ∧
    (PatchDashboard dStoreApply dash0 tfSpec).2.length = 1 :=
  ⟨by decide,
    ((patch_empty_diff_unchanged_and_idempotent dStoreApply dash0 tfSpec).2
      (fun c p => rfl) rfl).1,
    ((patch_empty_diff_unchanged_and_idempotent dStoreApply dash0 tfSpec).2
      (fun c p => rfl) rfl).2.1,
    ((patch_empty_diff_unchanged_and_idempotent dStoreApply dash0 tfSpec).2
      (fun c p => rfl) rfl).2.2.1,
    ((patch_empty_diff_unchanged_and_idempotent dStoreApply dash0 tfSpec).2
      (fun c p => rfl) rfl).2.2.2 (by decide)⟩

/-- C7: CreateOrPatch creates `transform` of the empty template with verb
`created` when the fetch reports not-found, returns any other fetch error
with verb `unchanged` and no write, and delegates to Patch when the record
is present; hence two successive calls with the same (idempotent) mutator
against a store that returns the created record yield `created` then
`unchanged` with no second write. -/
theorem createOrPatch_branches (st : DashStore) (meta : ObjectMeta)
    (transform : Dashboard → Dashboard) :
    (∀ e out, st.getR 1 = Except.error e → e.isNotFound = true →
      st.createR (transform (dashboardTemplate meta)) = Except.ok out →
      CreateOrPatchDashboard st meta transform =
        ((some out, VerbType.created, none),
         [DashOp.create (transform (dashboardTemplate meta))])) ∧
    (∀ e, st.getR 1 = Except.error e → e.isNotFound = false →
      CreateOrPatchDashboard st meta transform = ((none, VerbType.unchanged, some e), [])) ∧
    (∀ cur, st.getR 1 = Except.ok cur →
      CreateOrPatchDashboard st meta transform = PatchDashboard st cur transform) ∧
    (∀ (st2 : DashStore) e out, st.getR 1 = Except.error e → e.isNotFound = true →
      st.createR (transform (dashboardTemplate meta)) = Except.ok out →
      st2.getR 1 = Except.ok out → transform out = out →
      (CreateOrPatchDashboard st meta transform).1.2.1 = VerbType.created ∧
      CreateOrPatchDashboard st2 meta transform = ((some out, VerbType.unchanged, none), [])) := by
  refine ⟨?_, ?_, ?_, ?_⟩
  · intro e out hget hnf hcr
    unfold CreateOrPatchDashboard
    simp [hget, hnf, hcr]
  · intro e hget hnf
    unfold CreateOrPatchDashboard
    simp [hget, hnf]
  · intro cur hget
    unfold CreateOrPatchDashboard
    simp [hget]
  · intro st2 e out hget hnf hcr hget2 hid
    constructor
    · unfold CreateOrPatchDashboard
      simp [hget, hnf, hcr]
    · unfold CreateOrPatchDashboard
      have hz : dashboardMergeDiff out (transform out) = [] := by
        rw [hid]
        exact dashMergeDiff_self _
      unfold PatchDashboard PatchDashboardObject
      simp [hget2, hz]

theorem createOrPatch_branches_witness :
    dStoreApply.getR 1 = Except.error (KErr.notFound "dashboard not found") ∧
    (CreateOrPatchDashboard dStoreApply dashMeta0 tfSpec).1.2.1 = VerbType.created ∧
    CreateOrPatchDashboard
        { dStoreApply with getR := fun _ => Except.ok (tfSpec (dashboardTemplate dashMeta0)) }
        dashMeta0 tfSpec =
      ((some (tfSpec (dashboardTemplate dashMeta0)), VerbType.unchanged, none), []) :=
  ⟨rfl,
    ((createOrPatch_branches dStoreApply dashMeta0 tfSpec).2.2.2
      { dStoreApply with getR := fun _ => Except.ok (tfSpec (dashboardTemplate dashMeta0)) }
      (KErr.notFound "dashboard not found") (tfSpec (dashboardTemplate dashMeta0))
      rfl rfl rfl rfl rfl).1,
    ((createOrPatch_branches dStoreApply dashMeta0 tfSpec).2.2.2
      { dStoreApply with getR := fun _ => Except.ok (tfSpec (dashboardTemplate dashMeta0)) }
      (KErr.notFound "dashboard not found") (tfSpec (dashboardTemplate dashMeta0))
      rfl rfl rfl rfl rfl).2⟩

/-! ### TryUpdate loop scenarios -/

/-- The update submissions made by `TryUpdateDashboard` over `n` attempts
starting after attempt `a`, when every fetch returns `C k` and every update
fails: one full-update write per attempt, built from the freshly fetched
record. -/
def updFailOps (transform : Dashboard → Dashboard) (C : Nat → Dashboard) :
    Nat → Nat → List DashOp
  | _, 0 => []
  | a, n + 1 => DashOp.update (transform (C (a + 1))) :: updFailOps transform C (a + 1) n

theorem tryUpdate_all_updates_fail_loop (st : DashStore)
    (transform : Dashboard → Dashboard) (C : Nat → Dashboard) (E : Nat → KErr)
    (hget : ∀ k, st.getR k = Except.ok (C k))
    (hupd : ∀ k d, st.updateR k d = Except.error (E k)) :
    ∀ n a ops0 l0,
      pollLoop (tryUpdateCond st transform) n
        { attempt := a, result := none, ops := ops0, logs := l0 } =
      ({ attempt := a + n, result := none,
         ops := ops0 ++ updFailOps transform C a n, logs := l0 }, some .timeout) := by
  intro n
  induction n with
  | zero => intro a ops0 l0; simp [pollLoop, updFailOps]
  | succ m ih =>
      intro a ops0 l0
      have step : tryUpdateCond st transform
          { attempt := a, result := none, ops := ops0, logs := l0 } =
          ({ attempt := a + 1, result := none,
             ops := ops0 ++ [DashOp.update (transform (C (a + 1)))], logs := l0 },
           false, none) := by
        unfold tryUpdateCond
        simp [hget (a + 1), hupd (a + 1)]
      simp only [pollLoop, step, Bool.false_eq_true, if_false]
      rw [ih (a + 1) (ops0 ++ [DashOp.update (transform (C (a + 1)))]) l0]
      rw [show a + 1 + m = a + (m + 1) by omega]
      simp [updFailOps, List.append_assoc]

theorem tryUpdate_fetch_error_logged_loop (st : DashStore)
    (transform : Dashboard → Dashboard) (e : KErr)
    (hget : ∀ k, st.getR k = Except.error e) (hnf : e.isNotFound = false) :
    ∀ n a ops0 l0,
      pollLoop (tryUpdateCond st transform) n
        { attempt := a, result := none, ops := ops0, logs := l0 } =
      ({ attempt := a + n, result := none, ops := ops0, logs := l0 + n },
       some .timeout) := by
  intro n
  induction n with
  | zero => intro a ops0 l0; simp [pollLoop]
  | succ m ih =>
      intro a ops0 l0
      have step : tryUpdateCond st transform
          { attempt := a, result := none, ops := ops0, logs := l0 } =
          ({ attempt := a + 1, result := none, ops := ops0, logs := l0 + 1 },
           false, none) := by
        unfold tryUpdateCond
        simp [hget (a + 1), hnf]
      simp only [pollLoop, step, Bool.false_eq_true, if_false]
      rw [ih (a + 1) ops0 (l0 + 1)]
      rw [show a + 1 + m = a + (m + 1) by omega, show l0 + 1 + m = l0 + (m + 1) by omega]

/-- C8 (amended): a not-found fetch error aborts TryUpdate on its first
attempt, wrapped in an error naming the attempt count; when fetches succeed
and every update fails, the loop re-fetches and resubmits each attempt
without logging until the budget elapses, returning the aggregated timeout
error naming the number of attempts; a fetch failure other than not-found is
logged once per attempt and retried likewise. -/
theorem tryUpdate_notFound_aborts_update_failures_retry_unlogged
    (budget : Nat) (st : DashStore) (meta : ObjectMeta)
    (transform : Dashboard → Dashboard) (C : Nat → Dashboard) (E : Nat → KErr) (e : KErr) :
    (∀ m2, st.getR 1 = Except.error (KErr.notFound m2) → 1 ≤ budget →
      TryUpdateDashboard budget st meta transform =
        ((none, some (tryUpdateErrMsg meta 1 (PollErr.cond (KErr.notFound m2)))),
         { attempt := 1, result := none, ops := [], logs := 0 })) ∧
    ((∀ k, st.getR k = Except.ok (C k)) → (∀ k d, st.updateR k d = Except.error (E k)) →
      TryUpdateDashboard budget st meta transform =
        ((none, some (tryUpdateErrMsg meta budget PollErr.timeout)),
         { attempt := budget, result := none,
           ops := updFailOps transform C 0 budget, logs := 0 })) ∧
    ((∀ k, st.getR k = Except.error e) → e.isNotFound = false →
      TryUpdateDashboard budget st meta transform =
        ((none, some (tryUpdateErrMsg meta budget PollErr.timeout)),
         { attempt := budget, result := none, ops := [], logs := budget })) := by
  refine ⟨?_, ?_, ?_⟩
  · intro m2 hget hb
    obtain ⟨b, rfl⟩ : ∃ b, budget = b + 1 := ⟨budget - 1, by omega⟩
    unfold TryUpdateDashboard
    have step : tryUpdateCond st transform
        { attempt := 0, result := none, ops := [], logs := 0 } =
        ({ attempt := 1, result := none, ops := [], logs := 0 },
         false, some (KErr.notFound m2)) := by
      unfold tryUpdateCond
      simp [hget, KErr.isNotFound]
    simp [pollLoop, step]
  · intro hget hupd
    simp only [TryUpdateDashboard]
    rw [tryUpdate_all_updates_fail_loop st transform C E hget hupd budget 0 [] 0]
    simp
  · intro hget hnf
    simp only [TryUpdateDashboard]
    rw [tryUpdate_fetch_error_logged_loop st transform e hget hnf budget 0 [] 0]
    simp

/-- A store whose fetches succeed and whose updates always fail with a fatal
(non-not-found) error. -/
def stUpdFail : DashStore :=
  { getR := fun _ => Except.ok dash0
    createR := fun d => Except.ok d
    patchR := fun c p => Except.ok (applyDashDiff c p)
    updateR := fun _ _ => Except.error (.fatal "backend unavailable")
    updateStatusR := fun _ d => Except.ok d }

/-- C8 counterexample: with every fetch succeeding and every update failing
with a fatal error, a two-attempt run of TryUpdate makes both attempts (so
the update failures did cause retries) yet emits zero log lines — refuting
the claim that an update failure is logged. -/
theorem tryUpdate_update_failure_unlogged_cex :
    (TryUpdateDashboard 2 stUpdFail dashMeta0 id).2.attempt = 2 ∧
    (TryUpdateDashboard 2 stUpdFail dashMeta0 id).2.ops =
      [DashOp.update dash0, DashOp.update dash0] ∧
    (TryUpdateDashboard 2 stUpdFail dashMeta0 id).2.logs = 0 := by
  refine ⟨?_, ?_, ?_⟩ <;> rfl

theorem tryUpdate_notFound_aborts_update_failures_retry_unlogged_witness :
    dStoreApply.getR 1 = Except.error (KErr.notFound "dashboard not found") ∧
    TryUpdateDashboard 3 dStoreApply dashMeta0 id =
      ((none, some (tryUpdateErrMsg dashMeta0 1
          (PollErr.cond (KErr.notFound "dashboard not found")))),
       { attempt := 1, result := none, ops := [], logs := 0 }) :=
  ⟨rfl,
    (tryUpdate_notFound_aborts_update_failures_retry_unlogged 3 dStoreApply dashMeta0 id
        (fun _ => dash0) (fun _ => KErr.fatal "x") (KErr.fatal "x")).1
      "dashboard not found" rfl (by omega)⟩

/-! ### UpdateStatus conflict-retry scenario -/

/-- The status-update submissions of the conflict scenario: attempt `a+1`
submits from base `c`, each later attempt from the record fetched after the
previous conflict.  Every submission carries `transform` of the ORIGINAL
record's status. -/
def statusSubs (transform : DashboardStatus → DashboardStatus) (inn : Dashboard)
    (L : Nat → Dashboard) : Nat → Nat → Dashboard → List Dashboard
  | _, 0, c => [applyStatus c inn transform]
  | a, n + 1, c =>
      applyStatus c inn transform :: statusSubs transform inn L (a + 1) n (L (a + 1))

theorem statusSubs_status (transform : DashboardStatus → DashboardStatus)
    (inn : Dashboard) (L : Nat → Dashboard) :
    ∀ N a c b, b ∈ statusSubs transform inn L a N c → b.status = transform inn.status := by
  intro N
  induction N with
  | zero =>
      intro a c b hb
      simp [statusSubs] at hb
      subst hb
      rfl
  | succ n ih =>
      intro a c b hb
      simp [statusSubs] at hb
      rcases hb with hb | hb
      · subst hb; rfl
      · exact ih _ _ _ hb

theorem updateStatus_conflict_loop (st : DashStore)
    (transform : DashboardStatus → DashboardStatus) (inn : Dashboard)
    (L : Nat → Dashboard) (cmsg : String) :
    ∀ N budget a c subs0, N + 1 ≤ budget →
      (∀ k d, a < k → k ≤ a + N →
        st.updateStatusR k d = Except.error (KErr.conflict cmsg)) →
      (∀ d, st.updateStatusR (a + N + 1) d = Except.ok d) →
      (∀ k, a < k → k ≤ a + N → st.getR k = Except.ok (L k)) →
      pollLoop (updateStatusCond st transform inn) budget
        { attempt := a, getCalls := a, cur := c, result := none, subs := subs0 } =
      ({ attempt := a + N + 1, getCalls := a + N,
         cur := if N = 0 then c else L (a + N),
         result := some (applyStatus (if N = 0 then c else L (a + N)) inn transform),
         subs := subs0 ++ statusSubs transform inn L a N c }, none) := by
  intro N
  induction N with
  | zero =>
      intro budget a c subs0 hb hconf hok hget
      obtain ⟨b, rfl⟩ : ∃ b, budget = b + 1 := ⟨budget - 1, by omega⟩
      have step : updateStatusCond st transform inn
          { attempt := a, getCalls := a, cur := c, result := none, subs := subs0 } =
          ({ attempt := a + 1, getCalls := a, cur := c,
             result := some (applyStatus c inn transform),
             subs := subs0 ++ [applyStatus c inn transform] }, true, none) := by
        unfold updateStatusCond
        simp [hok (applyStatus c inn transform)]
      simp [pollLoop, step, statusSubs]
  | succ n ih =>
      intro budget a c subs0 hb hconf hok hget
      obtain ⟨b, rfl⟩ : ∃ b, budget = b + 1 := ⟨budget - 1, by omega⟩
      have hc1 := hconf (a + 1) (applyStatus c inn transform) (by omega) (by omega)
      have hg1 := hget (a + 1) (by omega) (by omega)
      have step : updateStatusCond st transform inn
          { attempt := a, getCalls := a, cur := c, result := none, subs := subs0 } =
          ({ attempt := a + 1, getCalls := a + 1, cur := L (a + 1), result := none,
             subs := subs0 ++ [applyStatus c inn transform] }, false, none) := by
        unfold updateStatusCond
        simp [hc1, hg1, KErr.isConflict]
      simp only [pollLoop, step, Bool.false_eq_true, if_false]
      rw [ih b (a + 1) (L (a + 1)) (subs0 ++ [applyStatus c inn transform]) (by omega)
          (fun k d hk1 hk2 => hconf k d (by omega) (by omega))
          (fun d => by rw [show a + 1 + n + 1 = a + (n + 1) + 1 by omega]; exact hok d)
          (fun k hk1 hk2 => hget k (by omega) (by omega))]
      have hcur : (if n = 0 then L (a + 1) else L (a + 1 + n)) = L (a + (n + 1)) := by
        cases n with
        | zero => simp
        | succ m =>
            rw [show a + 1 + (m + 1) = a + (m + 1 + 1) by omega]
            simp
      rw [hcur]
      rw [show a + 1 + n + 1 = a + (n + 1) + 1 by omega,
          show a + 1 + n = a + (n + 1) by omega]
      simp [statusSubs, List.append_assoc]

/-- C5: when the first `N` status-update attempts fail with a version
conflict and attempt `N+1` succeeds (N below the budget), UpdateStatus
returns success; the final attempt's base is the most recently fetched
record `L N`, every attempt's submission applies the mutator to the ORIGINAL
record's status, and the full submission sequence rebases each retry on the
record fetched after the previous conflict. -/
theorem updateStatus_conflict_retry_convergence
    (budget N : Nat) (st : DashStore) (inn : Dashboard)
    (transform : DashboardStatus → DashboardStatus) (L : Nat → Dashboard) (cmsg : String)
    (hb : N + 1 ≤ budget)
    (hconf : ∀ k d, 1 ≤ k → k ≤ N →
      st.updateStatusR k d = Except.error (KErr.conflict cmsg))
    (hok : ∀ d, st.updateStatusR (N + 1) d = Except.ok d)
    (hget : ∀ k, 1 ≤ k → k ≤ N → st.getR k = Except.ok (L k)) :
    (UpdateDashboardStatus budget st inn transform).1.2 = none ∧
    (UpdateDashboardStatus budget st inn transform).1.1 =
      some (applyStatus (if N = 0 then inn else L N) inn transform) ∧
    (UpdateDashboardStatus budget st inn transform).2.attempt = N + 1 ∧
    (UpdateDashboardStatus budget st inn transform).2.subs =
      statusSubs transform inn L 0 N inn ∧
    (∀ b, b ∈ (UpdateDashboardStatus budget st inn transform).2.subs →
      b.status = transform inn.status) := by
  have key := updateStatus_conflict_loop st transform inn L cmsg N budget 0 inn [] hb
      (fun k d h1 h2 => hconf k d (by omega) (by omega))
      (fun d => by rw [show (0 : Nat) + N + 1 = N + 1 by omega]; exact hok d)
      (fun k h1 h2 => hget k (by omega) (by omega))
  rw [show (0 : Nat) + N + 1 = N + 1 by omega, show (0 : Nat) + N = N by omega] at key
  simp only [UpdateDashboardStatus]
  rw [key]
  refine ⟨rfl, rfl, rfl, by simp, ?_⟩
  intro b hb2
  simp only [List.nil_append] at hb2
  exact statusSubs_status transform inn L N 0 inn b hb2

/-- The record the store reports as latest after the k-th conflict. -/
def latestD (k : Nat) : Dashboard := { dash0 with spec := "v" ++ toString k }

/-- A store whose first two status updates conflict and whose third
succeeds, echoing the submitted record; fetches return `latestD`. -/
def stConflict2 : DashStore :=
  { getR := fun k => Except.ok (latestD k)
    createR := fun d => Except.ok d
    patchR := fun c p => Except.ok (applyDashDiff c p)
    updateR := fun _ d => Except.ok d
    updateStatusR := fun k d =>
      if k ≤ 2 then Except.error (.conflict "the object has been modified") else Except.ok d }

def tfPhase (s : DashboardStatus) : DashboardStatus := { s with phase := "Current" }

theorem updateStatus_conflict_retry_convergence_witness :
    (UpdateDashboardStatus 4 stConflict2 dash0 tfPhase).1.2 = none ∧
    (UpdateDashboardStatus 4 stConflict2 dash0 tfPhase).1.1 =
      some (applyStatus (if (2 : Nat) = 0 then dash0 else latestD 2) dash0 tfPhase) ∧
    (UpdateDashboardStatus 4 stConflict2 dash0 tfPhase).2.attempt = 2 + 1 :=
  ⟨(updateStatus_conflict_retry_convergence 4 2 stConflict2 dash0 tfPhase latestD
      "the object has been modified" (by omega)
      (fun k d h1 h2 => by simp [stConflict2, h2])
      (fun d => by simp [stConflict2])
      (fun k h1 h2 => rfl)).1,
   (updateStatus_conflict_retry_convergence 4 2 stConflict2 dash0 tfPhase latestD
      "the object has been modified" (by omega)
      (fun k d h1 h2 => by simp [stConflict2, h2])
      (fun d => by simp [stConflict2])
      (fun k h1 h2 => rfl)).2.1,
   (updateStatus_conflict_retry_convergence 4 2 stConflict2 dash0 tfPhase latestD
      "the object has been modified" (by omega)
      (fun k d h1 h2 => by simp [stConflict2, h2])
      (fun d => by simp [stConflict2])
      (fun k h1 h2 => rfl)).2.2.1⟩

/-- A store whose status updates always fail with a fatal error (neither a
conflict nor retryable-transient). -/
def stStatusFatal : DashStore :=
  { getR := fun _ => Except.error (.fatal "get failed")
    createR := fun d => Except.ok d
    patchR := fun c p => Except.ok (applyDashDiff c p)
    updateR := fun _ d => Except.ok d
    updateStatusR := fun _ _ => Except.error (.fatal "internal error") }

/-- Like `stStatusFatal` but with a retryable-transient status-update error. -/
def stStatusTransient : DashStore :=
  { stStatusFatal with updateStatusR := fun _ _ => Except.error (.transient "server timeout") }

/-- C6: evaluation at the failing input.  With every status update failing
with a fatal (non-conflict, non-retryable) error, a three-attempt run of
UpdateStatus performs all three attempts and returns the aggregated timeout
error — it does NOT abort after the first attempt with that error, because
the source's abort branch tests the stale outer `err` variable, which is
still nil while the poll runs.  A retryable-transient error behaves the same
way, and in both runs no re-fetch is issued. -/
theorem updateStatus_nonconflict_error_retried_not_aborted :
    (UpdateDashboardStatus 3 stStatusFatal dash0 id).2.attempt = 3 ∧
    (UpdateDashboardStatus 3 stStatusFatal dash0 id).2.getCalls = 0 ∧
    (UpdateDashboardStatus 3 stStatusFatal dash0 id).1.2 =
      some (updateStatusErrMsg dash0 3 PollErr.timeout) ∧
    (UpdateDashboardStatus 3 stStatusTransient dash0 id).2.attempt = 3 ∧
    (UpdateDashboardStatus 3 stStatusTransient dash0 id).2.getCalls = 0 := by
  refine ⟨?_, ?_, ?_, ?_, ?_⟩ <;> rfl
